import Mathlib

/-
Verification of the ImmunoProbs sequence annotation core: the realization
decoder of immuno_probs/cli/generate_seqs.py and the extraction pipeline of
immuno_probs/cli/extract_file_sequences.py, shallowly embedded in Lean.
Strings are Lean strings; Python list indexing, int parsing and str.strip
are modelled explicitly with the CPython semantics.
-/

namespace ImmunoProbs

/-- A character stripped by the Python call str.strip with argument "()". -/
def isParen (c : Char) : Bool := c == '(' || c == ')'

/-- Remove characters satisfying p from both ends of a character list,
the semantics of the Python method str.strip(chars). -/
def stripChars (p : Char → Bool) (cs : List Char) : List Char :=
  ((cs.dropWhile p).reverse.dropWhile p).reverse

/-- The Python expression s.strip of the two parenthesis characters, as used
on raw gene-choice event strings such as "(1)". -/
def stripParens (s : String) : String :=
  (stripChars isParen s.toList).asString

/-- Parse a nonempty all-digit character list as a natural number, the digit
part of the Python int constructor. -/
def parseDigits (cs : List Char) : Option Nat :=
  if cs.isEmpty then none
  else if cs.all Char.isDigit then
    some (cs.foldl (fun n c => 10 * n + (c.toNat - 48)) 0)
  else none

/-- The Python int constructor on a string: surrounding whitespace is
ignored, an optional sign precedes the digits, anything else is a
ValueError (here: none). -/
def pyInt (s : String) : Option Int :=
  match (((s.toList.dropWhile Char.isWhitespace).reverse.dropWhile
      Char.isWhitespace).reverse : List Char) with
  | '-' :: rest => (parseDigits rest).map (fun n => -(n : Int))
  | '+' :: rest => (parseDigits rest).map (fun n => (n : Int))
  | cs => (parseDigits cs).map (fun n => (n : Int))

/-- Python list subscription with an integer index: nonnegative indices
address from the front, indices in [-len, -1] address from the back, and
anything else is an IndexError (here: none). -/
def pyIndex {α : Type} (xs : List α) (i : Int) : Option α :=
  if 0 ≤ i then
    if i < (xs.length : Int) then xs.get? i.toNat else none
  else
    if 0 ≤ i + (xs.length : Int) then xs.get? (i + (xs.length : Int)).toNat
    else none

/-- The genomic data of a loaded IGoR model: ordered gene lists for V, J
and D, each entry a pair of gene name and nucleotide sequence, as exposed by
IgorLoader.get_genomic_data in the source (entry index 0 is the name). -/
structure GenomicData where
  genV : List (String × String)
  genJ : List (String × String)
  genD : List (String × String)
deriving DecidableEq

/-- A loaded IGoR model: its type string and genomic data, the parts of
IgorLoader that _process_realizations consumes. -/
structure IgorLoader where
  modelType : String
  genomicData : GenomicData
deriving DecidableEq

/-- The accessor model.get_type of the source. -/
def IgorLoader.get_type (m : IgorLoader) : String := m.modelType

/-- The accessor model.get_genomic_data of the source. -/
def IgorLoader.get_genomic_data (m : IgorLoader) : GenomicData := m.genomicData

/-- A pandas dataframe of strings: an ordered list of column labels and the
rows, each row listing the cell values in column order. -/
structure DataFrame where
  cols : List String
  rows : List (List String)
deriving DecidableEq

/-- Whether pat occurs as a prefix of s, on character lists. -/
def isPrefixChars : List Char → List Char → Bool
  | [], _ => true
  | _ :: _, [] => false
  | a :: as, b :: bs => a == b && isPrefixChars as bs

/-- Whether pat occurs as a contiguous substring of s, on character lists.
This is the semantics of re.search for a pattern of literal characters
followed by a trailing dot-star, as the source passes to DataFrame.filter. -/
def containsChars (pat : List Char) : List Char → Bool
  | [] => isPrefixChars pat []
  | b :: bs => isPrefixChars pat (b :: bs) || containsChars pat bs

/-- Indices of the dataframe columns whose label is exactly name, in column
order: the selection data[[name]] of the source (KeyError when empty). -/
def colIdxsNamed (df : DataFrame) (name : String) : List Nat :=
  (List.range df.cols.length).filter (fun i => df.cols.getD i "" == name)

/-- The literal part of the regex the source passes to data.filter for a
gene: "GeneChoice_V_gene_.*" and friends. re.search matches a column label
iff this literal part occurs as a substring of the label. -/
def geneChoicePattern (gene : String) : String :=
  "GeneChoice_" ++ gene ++ "_gene_"

/-- Indices of the dataframe columns matched by data.filter with the
gene-choice regex of the given gene, in column order. -/
def matchingColIdxs (df : DataFrame) (gene : String) : List Nat :=
  (List.range df.cols.length).filter
    (fun i => containsChars (geneChoicePattern gene).toList
      ((df.cols.getD i "").toList))

/-- The exceptions _process_realizations can raise: KeyError from selecting
a missing seq_index column, ValueError from renaming to a column list of a
different length, ValueError from int() on a non-integer string, IndexError
from subscripting a gene list out of range, and UnboundLocalError from
returning real_df when neither branch assigned it. -/
inductive DecodeError
  | keyError
  | valueError
  | parseError
  | indexError
  | unboundLocal
deriving DecidableEq

/-- Resolve one raw gene-choice event string against an ordered gene list:
the source expression genes[int(s.strip of parens)][0]. -/
def resolveIndex (genes : List (String × String)) (s : String) :
    Except DecodeError String :=
  match pyInt (stripParens s) with
  | none => .error .parseError
  | some i =>
    match pyIndex genes i with
    | none => .error .indexError
    | some g => .ok g.fst

/-- The per-row lambda of the VDJ branch: the row holds seq_index and the
three gene-choice event strings; V is resolved first, then J, then D, and
the first exception aborts the row. -/
def resolveVDJRow (gd : GenomicData) (row : List String) :
    Except DecodeError (List String) :=
  match row with
  | [s, v, j, d] =>
    match resolveIndex gd.genV v with
    | .error e => .error e
    | .ok vn =>
      match resolveIndex gd.genJ j with
      | .error e => .error e
      | .ok jn =>
        match resolveIndex gd.genD d with
        | .error e => .error e
        | .ok dn => .ok [s, vn, jn, dn]
  | _ => .error .valueError

/-- The per-row lambda of the VJ branch: seq_index plus V and J event
strings, V resolved first. -/
def resolveVJRow (gd : GenomicData) (row : List String) :
    Except DecodeError (List String) :=
  match row with
  | [s, v, j] =>
    match resolveIndex gd.genV v with
    | .error e => .error e
    | .ok vn =>
      match resolveIndex gd.genJ j with
      | .error e => .error e
      | .ok jn => .ok [s, vn, jn]
  | _ => .error .valueError

/-- Apply a fallible function to every list element in order, propagating
the first exception: the semantics of DataFrame.apply over rows when the
applied lambda can raise. -/
def mapExcept {α β ε : Type} (f : α → Except ε β) : List α → Except ε (List β)
  | [] => .ok []
  | a :: as =>
    match f a with
    | .error e => .error e
    | .ok b =>
      match mapExcept f as with
      | .error e => .error e
      | .ok bs => .ok (b :: bs)

/-- The static method GenerateSeqs._process_realizations of
immuno_probs/cli/generate_seqs.py: select the seq_index column and the
regex-matched gene-choice columns, rename them (a ValueError unless exactly
4 columns for VDJ, 3 for VJ, were selected), and resolve every event index
against the model gene lists. On a zero-row table the apply over rows
yields an empty result and unpacking the zip of it into the assignment
targets raises a ValueError, so no empty table is ever returned. A model
type other than VDJ and VJ leaves real_df unassigned, an UnboundLocalError
at the return statement. -/
def processRealizations (data : DataFrame) (model : IgorLoader) :
    Except DecodeError DataFrame :=
  if model.get_type == "VDJ" then
    let seqIdxs := colIdxsNamed data "seq_index"
    if seqIdxs.isEmpty then .error .keyError
    else
      let idxs := seqIdxs ++ matchingColIdxs data "V" ++
        matchingColIdxs data "J" ++ matchingColIdxs data "D"
      if idxs.length == 4 then
        if data.rows.isEmpty then .error .valueError
        else
          match mapExcept
            (fun r => resolveVDJRow model.get_genomic_data
              (idxs.map (fun i => r.getD i ""))) data.rows with
          | .error e => .error e
          | .ok rs =>
            .ok ⟨["seq_index", "gene_choice_v", "gene_choice_j",
              "gene_choice_d"], rs⟩
      else .error .valueError
  else if model.get_type == "VJ" then
    let seqIdxs := colIdxsNamed data "seq_index"
    if seqIdxs.isEmpty then .error .keyError
    else
      let idxs := seqIdxs ++ matchingColIdxs data "V" ++
        matchingColIdxs data "J"
      if idxs.length == 3 then
        if data.rows.isEmpty then .error .valueError
        else
          match mapExcept
            (fun r => resolveVJRow model.get_genomic_data
              (idxs.map (fun i => r.getD i ""))) data.rows with
          | .error e => .error e
          | .ok rs =>
            .ok ⟨["seq_index", "gene_choice_v", "gene_choice_j"], rs⟩
      else .error .valueError
  else .error .unboundLocal

/-- Equality of exception results is decidable when both components are. -/
instance {ε α : Type} [DecidableEq ε] [DecidableEq α] :
    DecidableEq (Except ε α) := fun a b =>
  match a, b with
  | .error e, .error f =>
    if h : e = f then isTrue (by rw [h]) else isFalse (by simp [h])
  | .error _, .ok _ => isFalse (by simp)
  | .ok _, .error _ => isFalse (by simp)
  | .ok x, .ok y =>
    if h : x = y then isTrue (by rw [h]) else isFalse (by simp [h])

/-- The synthetic VDJ model of the round-trip property: ordered gene name
lists V = TRBV1, TRBV2; J = TRBJ1; D = TRBD1. -/
def modelC1 : IgorLoader :=
  ⟨"VDJ", ⟨[("TRBV1", "aaa"), ("TRBV2", "ccc")], [("TRBJ1", "ggg")],
    [("TRBD1", "ttt")]⟩⟩

/-- The raw realization table of the round-trip property: one row with
seq_index 0 and gene-choice events (1) for V, (0) for J, (0) for D. -/
def dataC1 : DataFrame :=
  ⟨["seq_index", "GeneChoice_V_gene_Undefined_side_prio7_size2",
    "GeneChoice_J_gene_Undefined_side_prio7_size1",
    "GeneChoice_D_gene_Undefined_side_prio6_size1"],
   [["0", "(1)", "(0)", "(0)"]]⟩

/-- C1: decoding the single raw realization row with seq_index 0 and
gene-choice event strings (1) for V, (0) for J, (0) for D against the
synthetic VDJ model yields exactly the row with seq_index 0, named V TRBV2,
named J TRBJ1, named D TRBD1. -/
theorem C1_decode_round_trip :
    processRealizations dataC1 modelC1 =
      Except.ok ⟨["seq_index", "gene_choice_v", "gene_choice_j",
        "gene_choice_d"], [["0", "TRBV2", "TRBJ1", "TRBD1"]]⟩ := by
  decide

/-- The raw realization table with V event index 5, for the out-of-bounds
property against the 2-element V list of modelC1. -/
def dataC3 : DataFrame :=
  ⟨["seq_index", "GeneChoice_V_gene_Undefined_side_prio7_size2",
    "GeneChoice_J_gene_Undefined_side_prio7_size1",
    "GeneChoice_D_gene_Undefined_side_prio6_size1"],
   [["0", "(5)", "(0)", "(0)"]]⟩

/-- C3: decoding a row whose V gene-choice event string is (5) against a
model whose V list has exactly 2 elements raises the index-resolution
error; in particular the index is neither clamped to position 1 nor wrapped
to position 1 modulo 2, since no table is produced at all. -/
theorem C3_out_of_bounds_index :
    processRealizations dataC3 modelC1 =
      Except.error DecodeError.indexError := by
  decide

/-- Python subscription fails on indices at or past the length and on
negative indices below minus the length. -/
lemma pyIndex_eq_none {α : Type} (xs : List α) (i : Int)
    (h : (xs.length : Int) ≤ i ∨ i + (xs.length : Int) < 0) :
    pyIndex xs i = none := by
  unfold pyIndex
  rcases h with h | h
  · have h0 : 0 ≤ i := le_trans (by positivity) h
    rw [if_pos h0, if_neg (not_lt.mpr h)]
  · have h0 : ¬ 0 ≤ i := by omega
    have h3 : ¬ 0 ≤ i + (xs.length : Int) := by omega
    rw [if_neg h0, if_neg h3]

/-- Python subscription resolves a negative index in [-len, -1] to the
element at position len + i, for any default of getD. -/
lemma pyIndex_neg_inrange {α : Type} (xs : List α) (i : Int) (d : α)
    (h1 : -(xs.length : Int) ≤ i) (h2 : i < 0) :
    pyIndex xs i = some (xs.getD (i + (xs.length : Int)).toNat d) := by
  unfold pyIndex
  have h0 : ¬ 0 ≤ i := by omega
  have h3 : 0 ≤ i + (xs.length : Int) := by omega
  rw [if_neg h0, if_pos h3]
  have h4 : (i + (xs.length : Int)).toNat < xs.length := by omega
  cases hx : xs.get? (i + (xs.length : Int)).toNat with
  | none =>
    have := List.get?_eq_none.mp hx
    omega
  | some x =>
    rw [List.getD_eq_get?, hx]
    rfl

/-- The raw realization table with V event index -1, against the 2-element
V list of modelC1. -/
def dataC2 : DataFrame :=
  ⟨["seq_index", "GeneChoice_V_gene_Undefined_side_prio7_size2",
    "GeneChoice_J_gene_Undefined_side_prio7_size1",
    "GeneChoice_D_gene_Undefined_side_prio6_size1"],
   [["0", "(-1)", "(0)", "(0)"]]⟩

/-- C2 counterexample: the V event string (-1) parses to the integer -1,
which is not a valid index in the range 0 to 1 of the 2-element V list, yet
decoding does not fail: Python negative subscription silently resolves it
to the last gene TRBV2. -/
theorem C2_counterexample_negative_index :
    pyInt (stripParens "(-1)") = some (-1) ∧
    ¬ (0 ≤ (-1 : Int) ∧
      (-1 : Int) < (modelC1.get_genomic_data.genV.length : Int)) ∧
    processRealizations dataC2 modelC1 =
      Except.ok ⟨["seq_index", "gene_choice_v", "gene_choice_j",
        "gene_choice_d"], [["0", "TRBV2", "TRBJ1", "TRBD1"]]⟩ := by
  decide

/-- C2 amended: a parsed V event index at or past the V-list length, or
below minus that length, makes the row decode fail with the index error;
but a parsed negative index in [-len, -1] is silently resolved, by Python
negative subscription, to the gene at position len + i. -/
theorem C2_amended_index_bounds (gd : GenomicData) (s v j d : String)
    (i : Int) (hp : pyInt (stripParens v) = some i) :
    (((gd.genV.length : Int) ≤ i ∨ i + (gd.genV.length : Int) < 0) →
      resolveVDJRow gd [s, v, j, d] = Except.error DecodeError.indexError) ∧
    ((-(gd.genV.length : Int) ≤ i ∧ i < 0) →
      resolveIndex gd.genV v =
        Except.ok ((gd.genV.getD (i + (gd.genV.length : Int)).toNat
          ("", "")).fst)) := by
  constructor
  · intro h
    simp [resolveVDJRow, resolveIndex, hp, pyIndex_eq_none gd.genV i h]
  · rintro ⟨h1, h2⟩
    simp [resolveIndex, hp, pyIndex_neg_inrange gd.genV i ("", "") h1 h2]

/-- The genomic data with a 2-element V list used to witness the amended
index-bounds theorem. -/
def gdC2 : GenomicData :=
  ⟨[("TRBV1", "aaa"), ("TRBV2", "ccc")], [("TRBJ1", "ggg")],
    [("TRBD1", "ttt")]⟩

/-- Witness for the amended C2 theorem at the concrete V event (-1) against
the 2-element V list: the out-of-range arm is vacuous and the negative arm
resolves to TRBV2. -/
theorem C2_amended_index_bounds_witness :
    (((gdC2.genV.length : Int) ≤ -1 ∨
        (-1 : Int) + (gdC2.genV.length : Int) < 0) →
      resolveVDJRow gdC2 ["0", "(-1)", "(0)", "(0)"] =
        Except.error DecodeError.indexError) ∧
    ((-(gdC2.genV.length : Int) ≤ -1 ∧ (-1 : Int) < 0) →
      resolveIndex gdC2.genV "(-1)" =
        Except.ok ((gdC2.genV.getD
          ((-1 : Int) + (gdC2.genV.length : Int)).toNat ("", "")).fst)) :=
  C2_amended_index_bounds gdC2 "0" "(-1)" "(0)" "(0)" (-1) (by decide)

/-- C10: for a model whose type string is neither VDJ nor VJ, no branch of
the decoder assigns the result variable and the return statement raises;
no table is ever produced. -/
theorem C10_unknown_architecture_fails (data : DataFrame) (m : IgorLoader)
    (h1 : m.get_type ≠ "VDJ") (h2 : m.get_type ≠ "VJ") :
    processRealizations data m = Except.error DecodeError.unboundLocal := by
  simp [processRealizations, h1, h2]

/-- Witness for C10 at a model of type Spam over an arbitrary one-row
table: the decoder raises instead of returning. -/
theorem C10_unknown_architecture_fails_witness :
    processRealizations dataC1 ⟨"Spam", gdC2⟩ =
      Except.error DecodeError.unboundLocal :=
  C10_unknown_architecture_fails dataC1 ⟨"Spam", gdC2⟩
    (by decide) (by decide)

/-- A successful fallible map has one output element per input element. -/
lemma mapExcept_ok_length {α β ε : Type} (f : α → Except ε β) (l : List α) :
    ∀ (res : List β), mapExcept f l = Except.ok res →
      res.length = l.length := by
  induction l with
  | nil =>
    intro res h
    simp only [mapExcept, Except.ok.injEq] at h
    rw [← h]
    rfl
  | cons a as ih =>
    intro res h
    simp only [mapExcept] at h
    cases hf : f a with
    | error e => rw [hf] at h; exact absurd h (by simp)
    | ok b =>
      rw [hf] at h
      cases hm : mapExcept f as with
      | error e => rw [hm] at h; exact absurd h (by simp)
      | ok bs =>
        rw [hm] at h
        simp only [Except.ok.injEq] at h
        rw [← h]
        simp [ih bs hm]

/-- A successful fallible map sends the element at every position to the
output at the same position. -/
lemma mapExcept_ok_get {α β ε : Type} (f : α → Except ε β) (l : List α) :
    ∀ (res : List β), mapExcept f l = Except.ok res →
      ∀ (k : Nat) (a : α), l.get? k = some a →
        ∃ b, res.get? k = some b ∧ f a = Except.ok b := by
  induction l with
  | nil =>
    intro res h k a ha
    simp at ha
  | cons a0 as ih =>
    intro res h k a ha
    simp only [mapExcept] at h
    cases hf : f a0 with
    | error e => rw [hf] at h; exact absurd h (by simp)
    | ok b =>
      rw [hf] at h
      cases hm : mapExcept f as with
      | error e => rw [hm] at h; exact absurd h (by simp)
      | ok bs =>
        rw [hm] at h
        simp only [Except.ok.injEq] at h
        rw [← h]
        cases k with
        | zero =>
          simp only [List.get?] at ha
          exact ⟨b, rfl, by rw [← Option.some_inj.mp ha]; exact hf⟩
        | succ k2 =>
          simp only [List.get?] at ha
          exact ih bs hm k2 a ha

/-- Every element of a successful fallible map is the image of some input
element. -/
lemma mapExcept_ok_mem {α β ε : Type} (f : α → Except ε β) (l : List α) :
    ∀ (res : List β), mapExcept f l = Except.ok res →
      ∀ b ∈ res, ∃ a ∈ l, f a = Except.ok b := by
  induction l with
  | nil =>
    intro res h b hb
    simp only [mapExcept, Except.ok.injEq] at h
    rw [← h] at hb
    simp at hb
  | cons a0 as ih =>
    intro res h b hb
    simp only [mapExcept] at h
    cases hf : f a0 with
    | error e => rw [hf] at h; exact absurd h (by simp)
    | ok b0 =>
      rw [hf] at h
      cases hm : mapExcept f as with
      | error e => rw [hm] at h; exact absurd h (by simp)
      | ok bs =>
        rw [hm] at h
        simp only [Except.ok.injEq] at h
        rw [← h] at hb
        rcases List.mem_cons.mp hb with hb | hb
        · exact ⟨a0, List.mem_cons_self a0 as, by rw [← hb] at hf; exact hf⟩
        · obtain ⟨a, ha, hfa⟩ := ih bs hm b hb
          exact ⟨a, List.mem_cons_of_mem a0 ha, hfa⟩

/-- A fallible map succeeds when the function succeeds on every element. -/
lemma mapExcept_ok_of_forall {α β ε : Type} (f : α → Except ε β)
    (l : List α) :
    (∀ a ∈ l, ∃ b, f a = Except.ok b) →
      ∃ res, mapExcept f l = Except.ok res := by
  induction l with
  | nil => intro _; exact ⟨[], rfl⟩
  | cons a as ih =>
    intro h
    obtain ⟨b, hb⟩ := h a (List.mem_cons_self a as)
    obtain ⟨bs, hbs⟩ := ih (fun x hx => h x (List.mem_cons_of_mem a hx))
    exact ⟨b :: bs, by simp only [mapExcept, hb, hbs]⟩

/-- A fallible map raises exactly when the function raises on some
element. -/
lemma mapExcept_error_iff {α β ε : Type} (f : α → Except ε β) (l : List α) :
    (∃ e, mapExcept f l = Except.error e) ↔
      ∃ a ∈ l, ∃ e, f a = Except.error e := by
  induction l with
  | nil => simp [mapExcept]
  | cons a as ih =>
    constructor
    · rintro ⟨e, he⟩
      simp only [mapExcept] at he
      cases hf : f a with
      | error e2 => exact ⟨a, List.mem_cons_self a as, e2, hf⟩
      | ok b =>
        rw [hf] at he
        cases hm : mapExcept f as with
        | error e2 =>
          obtain ⟨a2, ha2, he2⟩ := ih.mp ⟨e2, hm⟩
          exact ⟨a2, List.mem_cons_of_mem a ha2, he2⟩
        | ok bs => rw [hm] at he; exact absurd he (by simp)
    · rintro ⟨a2, ha2, e, he⟩
      rcases List.mem_cons.mp ha2 with h | h
      · exact ⟨e, by rw [h] at he; simp only [mapExcept, he]⟩
      · cases hf : f a with
        | error e2 => exact ⟨e2, by simp only [mapExcept, hf]⟩
        | ok b =>
          obtain ⟨e3, he3⟩ := ih.mpr ⟨a2, h, e, he⟩
          exact ⟨e3, by simp only [mapExcept, hf, he3]⟩

/-- A successful Python subscription returns a list element. -/
lemma pyIndex_mem {α : Type} (xs : List α) (i : Int) (x : α)
    (h : pyIndex xs i = some x) : x ∈ xs := by
  unfold pyIndex at h
  split at h
  · split at h
    · exact List.get?_mem h
    · exact absurd h (by simp)
  · split at h
    · exact List.get?_mem h
    · exact absurd h (by simp)

/-- A successfully resolved event always names a gene of the model list. -/
lemma resolveIndex_ok_mem (genes : List (String × String)) (s g : String)
    (h : resolveIndex genes s = Except.ok g) : g ∈ genes.map Prod.fst := by
  cases hp : pyInt (stripParens s) with
  | none =>
    simp only [resolveIndex, hp] at h
    exact absurd h (by simp)
  | some i =>
    cases hx : pyIndex genes i with
    | none =>
      simp only [resolveIndex, hp, hx] at h
      exact absurd h (by simp)
    | some e =>
      simp only [resolveIndex, hp, hx, Except.ok.injEq] at h
      rw [← h]
      exact List.mem_map_of_mem Prod.fst (pyIndex_mem genes i e hx)

/-- The raw event string parses to an integer index lying in the range 0 to
length - 1 of the gene list: the in-range side condition of the spec. -/
def eventInRange (genes : List (String × String)) (s : String) : Bool :=
  match pyInt (stripParens s) with
  | none => false
  | some i => decide (0 ≤ i ∧ i < (genes.length : Int))

/-- Resolution succeeds on every event whose parsed index is in range. -/
lemma resolveIndex_ok_of_inRange (genes : List (String × String))
    (s : String) (h : eventInRange genes s = true) :
    ∃ g, resolveIndex genes s = Except.ok g := by
  cases hp : pyInt (stripParens s) with
  | none =>
    simp only [eventInRange, hp] at h
    exact absurd h (by simp)
  | some i =>
    simp only [eventInRange, hp] at h
    have hi := of_decide_eq_true h
    have hg : ∃ g, pyIndex genes i = some g := by
      unfold pyIndex
      rw [if_pos hi.1, if_pos hi.2]
      have hlt : i.toNat < genes.length := by omega
      cases hx : genes.get? i.toNat with
      | none =>
        have := List.get?_eq_none.mp hx
        omega
      | some g => exact ⟨g, rfl⟩
    obtain ⟨g, hx⟩ := hg
    exact ⟨g.fst, by simp only [resolveIndex, hp, hx]⟩

/-- A successfully decoded VDJ row is the sequence index followed by three
names drawn from the V, J and D lists of the model. -/
lemma resolveVDJRow_ok_shape (gd : GenomicData) (row out : List String)
    (h : resolveVDJRow gd row = Except.ok out) :
    ∃ s vn jn dn, out = [s, vn, jn, dn] ∧
      row.getD 0 "" = s ∧
      vn ∈ gd.genV.map Prod.fst ∧ jn ∈ gd.genJ.map Prod.fst ∧
      dn ∈ gd.genD.map Prod.fst := by
  match row with
  | [s, v, j, d] =>
    cases hv : resolveIndex gd.genV v with
    | error e =>
      simp only [resolveVDJRow, hv] at h
      exact absurd h (by simp)
    | ok vn =>
      cases hj : resolveIndex gd.genJ j with
      | error e =>
        simp only [resolveVDJRow, hv, hj] at h
        exact absurd h (by simp)
      | ok jn =>
        cases hd : resolveIndex gd.genD d with
        | error e =>
          simp only [resolveVDJRow, hv, hj, hd] at h
          exact absurd h (by simp)
        | ok dn =>
          simp only [resolveVDJRow, hv, hj, hd, Except.ok.injEq] at h
          exact ⟨s, vn, jn, dn, h.symm, rfl,
            resolveIndex_ok_mem gd.genV v vn hv,
            resolveIndex_ok_mem gd.genJ j jn hj,
            resolveIndex_ok_mem gd.genD d dn hd⟩
  | [] => simp only [resolveVDJRow] at h; exact absurd h (by simp)
  | [a] => simp only [resolveVDJRow] at h; exact absurd h (by simp)
  | [a, b] => simp only [resolveVDJRow] at h; exact absurd h (by simp)
  | [a, b, c] => simp only [resolveVDJRow] at h; exact absurd h (by simp)
  | a :: b :: c :: d :: e :: rest =>
    simp only [resolveVDJRow] at h
    exact absurd h (by simp)

/-- A successfully decoded VJ row is the sequence index followed by two
names drawn from the V and J lists of the model. -/
lemma resolveVJRow_ok_shape (gd : GenomicData) (row out : List String)
    (h : resolveVJRow gd row = Except.ok out) :
    ∃ s vn jn, out = [s, vn, jn] ∧
      row.getD 0 "" = s ∧
      vn ∈ gd.genV.map Prod.fst ∧ jn ∈ gd.genJ.map Prod.fst := by
  match row with
  | [s, v, j] =>
    cases hv : resolveIndex gd.genV v with
    | error e =>
      simp only [resolveVJRow, hv] at h
      exact absurd h (by simp)
    | ok vn =>
      cases hj : resolveIndex gd.genJ j with
      | error e =>
        simp only [resolveVJRow, hv, hj] at h
        exact absurd h (by simp)
      | ok jn =>
        simp only [resolveVJRow, hv, hj, Except.ok.injEq] at h
        exact ⟨s, vn, jn, h.symm, rfl,
          resolveIndex_ok_mem gd.genV v vn hv,
          resolveIndex_ok_mem gd.genJ j jn hj⟩
  | [] => simp only [resolveVJRow] at h; exact absurd h (by simp)
  | [a] => simp only [resolveVJRow] at h; exact absurd h (by simp)
  | [a, b] => simp only [resolveVJRow] at h; exact absurd h (by simp)
  | a :: b :: c :: d :: rest =>
    simp only [resolveVJRow] at h
    exact absurd h (by simp)

/-- C4: whenever the decoder returns a table, a VDJ model yields exactly
the columns seq_index, gene_choice_v, gene_choice_j, gene_choice_d, every
row being the sequence index followed by gene names drawn from the V, J and
D lists of the model, and a VJ model yields the same minus the D column. -/
theorem C4_output_column_shape (data : DataFrame) (m : IgorLoader)
    (t : DataFrame) (hok : processRealizations data m = Except.ok t) :
    (m.get_type = "VDJ" →
      t.cols = ["seq_index", "gene_choice_v", "gene_choice_j",
        "gene_choice_d"] ∧
      ∀ r ∈ t.rows, ∃ s vn jn dn, r = [s, vn, jn, dn] ∧
        vn ∈ m.get_genomic_data.genV.map Prod.fst ∧
        jn ∈ m.get_genomic_data.genJ.map Prod.fst ∧
        dn ∈ m.get_genomic_data.genD.map Prod.fst) ∧
    (m.get_type = "VJ" →
      t.cols = ["seq_index", "gene_choice_v", "gene_choice_j"] ∧
      ∀ r ∈ t.rows, ∃ s vn jn, r = [s, vn, jn] ∧
        vn ∈ m.get_genomic_data.genV.map Prod.fst ∧
        jn ∈ m.get_genomic_data.genJ.map Prod.fst) := by
  constructor
  · intro hT
    unfold processRealizations at hok
    rw [hT] at hok
    simp only [beq_self_eq_true, if_true] at hok
    by_cases hE : (colIdxsNamed data "seq_index").isEmpty
    · rw [if_pos hE] at hok
      exact absurd hok (by simp)
    · rw [if_neg hE] at hok
      by_cases hL : ((colIdxsNamed data "seq_index" ++
          matchingColIdxs data "V" ++ matchingColIdxs data "J" ++
          matchingColIdxs data "D").length == 4) = true
      · rw [if_pos hL] at hok
        by_cases hR : data.rows.isEmpty = true
        · rw [if_pos hR] at hok
          exact absurd hok (by simp)
        · rw [if_neg hR] at hok
          cases hm : mapExcept
            (fun r => resolveVDJRow m.get_genomic_data
              ((colIdxsNamed data "seq_index" ++ matchingColIdxs data "V" ++
                matchingColIdxs data "J" ++ matchingColIdxs data "D").map
                (fun i => r.getD i ""))) data.rows with
          | error e =>
            rw [hm] at hok
            exact absurd hok (by simp)
          | ok rs =>
            rw [hm] at hok
            simp only [Except.ok.injEq] at hok
            rw [← hok]
            refine ⟨rfl, ?_⟩
            intro r hr
            obtain ⟨a, _, hfa⟩ := mapExcept_ok_mem _ data.rows rs hm r hr
            obtain ⟨s, vn, jn, dn, hout, _, hv, hj, hd⟩ :=
              resolveVDJRow_ok_shape m.get_genomic_data _ r hfa
            exact ⟨s, vn, jn, dn, hout, hv, hj, hd⟩
      · rw [if_neg hL] at hok
        exact absurd hok (by simp)
  · intro hT
    unfold processRealizations at hok
    rw [hT] at hok
    simp only [beq_self_eq_true, if_true] at hok
    by_cases hB : ("VJ" == "VDJ") = true
    · exact absurd hB (by decide)
    · rw [if_neg hB] at hok
      by_cases hE : (colIdxsNamed data "seq_index").isEmpty
      · rw [if_pos hE] at hok
        exact absurd hok (by simp)
      · rw [if_neg hE] at hok
        by_cases hL : ((colIdxsNamed data "seq_index" ++
            matchingColIdxs data "V" ++
            matchingColIdxs data "J").length == 3) = true
        · rw [if_pos hL] at hok
          by_cases hR : data.rows.isEmpty = true
          · rw [if_pos hR] at hok
            exact absurd hok (by simp)
          · rw [if_neg hR] at hok
            cases hm : mapExcept
                (fun r => resolveVJRow m.get_genomic_data
                  ((colIdxsNamed data "seq_index" ++
                    matchingColIdxs data "V" ++
                    matchingColIdxs data "J").map
                    (fun i => r.getD i ""))) data.rows with
            | error e =>
              rw [hm] at hok
              exact absurd hok (by simp)
            | ok rs =>
              rw [hm] at hok
              simp only [Except.ok.injEq] at hok
              rw [← hok]
              refine ⟨rfl, ?_⟩
              intro r hr
              obtain ⟨a, _, hfa⟩ := mapExcept_ok_mem _ data.rows rs hm r hr
              obtain ⟨s, vn, jn, hout, _, hv, hj⟩ :=
                resolveVJRow_ok_shape m.get_genomic_data _ r hfa
              exact ⟨s, vn, jn, hout, hv, hj⟩
        · rw [if_neg hL] at hok
          exact absurd hok (by simp)

/-- Witness for C4 at the synthetic VDJ model and its one-row table. -/
theorem C4_output_column_shape_witness :
    (modelC1.get_type = "VDJ" →
      (DataFrame.mk ["seq_index", "gene_choice_v", "gene_choice_j",
        "gene_choice_d"] [["0", "TRBV2", "TRBJ1", "TRBD1"]]).cols =
        ["seq_index", "gene_choice_v", "gene_choice_j", "gene_choice_d"] ∧
      ∀ r ∈ (DataFrame.mk ["seq_index", "gene_choice_v", "gene_choice_j",
        "gene_choice_d"] [["0", "TRBV2", "TRBJ1", "TRBD1"]]).rows,
        ∃ s vn jn dn, r = [s, vn, jn, dn] ∧
          vn ∈ modelC1.get_genomic_data.genV.map Prod.fst ∧
          jn ∈ modelC1.get_genomic_data.genJ.map Prod.fst ∧
          dn ∈ modelC1.get_genomic_data.genD.map Prod.fst) ∧
    (modelC1.get_type = "VJ" →
      (DataFrame.mk ["seq_index", "gene_choice_v", "gene_choice_j",
        "gene_choice_d"] [["0", "TRBV2", "TRBJ1", "TRBD1"]]).cols =
        ["seq_index", "gene_choice_v", "gene_choice_j"] ∧
      ∀ r ∈ (DataFrame.mk ["seq_index", "gene_choice_v", "gene_choice_j",
        "gene_choice_d"] [["0", "TRBV2", "TRBJ1", "TRBD1"]]).rows,
        ∃ s vn jn, r = [s, vn, jn] ∧
          vn ∈ modelC1.get_genomic_data.genV.map Prod.fst ∧
          jn ∈ modelC1.get_genomic_data.genJ.map Prod.fst) :=
  C4_output_column_shape dataC1 modelC1
    ⟨["seq_index", "gene_choice_v", "gene_choice_j", "gene_choice_d"],
      [["0", "TRBV2", "TRBJ1", "TRBD1"]]⟩ (by decide)

/-- A VDJ row decodes successfully when all three events are in range. -/
lemma resolveVDJRow_ok_of_inRange (gd : GenomicData) (s v j d : String)
    (hv : eventInRange gd.genV v = true)
    (hj : eventInRange gd.genJ j = true)
    (hd : eventInRange gd.genD d = true) :
    ∃ out, resolveVDJRow gd [s, v, j, d] = Except.ok out := by
  obtain ⟨vn, hvn⟩ := resolveIndex_ok_of_inRange gd.genV v hv
  obtain ⟨jn, hjn⟩ := resolveIndex_ok_of_inRange gd.genJ j hj
  obtain ⟨dn, hdn⟩ := resolveIndex_ok_of_inRange gd.genD d hd
  exact ⟨[s, vn, jn, dn], by simp only [resolveVDJRow, hvn, hjn, hdn]⟩

/-- A VJ row decodes successfully when both events are in range. -/
lemma resolveVJRow_ok_of_inRange (gd : GenomicData) (s v j : String)
    (hv : eventInRange gd.genV v = true)
    (hj : eventInRange gd.genJ j = true) :
    ∃ out, resolveVJRow gd [s, v, j] = Except.ok out := by
  obtain ⟨vn, hvn⟩ := resolveIndex_ok_of_inRange gd.genV v hv
  obtain ⟨jn, hjn⟩ := resolveIndex_ok_of_inRange gd.genJ j hj
  exact ⟨[s, vn, jn], by simp only [resolveVJRow, hvn, hjn]⟩

/-- C5 amended: when the seq_index column and each gene-choice regex select
exactly one column, every event index of every row is in range, and the
table has at least one row, the decoder succeeds with exactly one output
row per input row, and the output row at every position carries the
sequence-index value of the input row at the same position. A zero-row
table instead raises a ValueError from unpacking the empty apply result.
Stated for the VDJ architecture and for the VJ architecture. -/
theorem C5_row_correspondence :
    (∀ (data : DataFrame) (m : IgorLoader) (s0 iv ij di : Nat),
      m.get_type = "VDJ" →
      colIdxsNamed data "seq_index" = [s0] →
      matchingColIdxs data "V" = [iv] →
      matchingColIdxs data "J" = [ij] →
      matchingColIdxs data "D" = [di] →
      data.rows ≠ [] →
      (∀ r ∈ data.rows,
        eventInRange m.get_genomic_data.genV (r.getD iv "") = true ∧
        eventInRange m.get_genomic_data.genJ (r.getD ij "") = true ∧
        eventInRange m.get_genomic_data.genD (r.getD di "") = true) →
      ∃ t, processRealizations data m = Except.ok t ∧
        t.rows.length = data.rows.length ∧
        ∀ (k : Nat) (r : List String), data.rows.get? k = some r →
          ∃ r2, t.rows.get? k = some r2 ∧ r2.getD 0 "" = r.getD s0 "") ∧
    (∀ (data : DataFrame) (m : IgorLoader) (s0 iv ij : Nat),
      m.get_type = "VJ" →
      colIdxsNamed data "seq_index" = [s0] →
      matchingColIdxs data "V" = [iv] →
      matchingColIdxs data "J" = [ij] →
      data.rows ≠ [] →
      (∀ r ∈ data.rows,
        eventInRange m.get_genomic_data.genV (r.getD iv "") = true ∧
        eventInRange m.get_genomic_data.genJ (r.getD ij "") = true) →
      ∃ t, processRealizations data m = Except.ok t ∧
        t.rows.length = data.rows.length ∧
        ∀ (k : Nat) (r : List String), data.rows.get? k = some r →
          ∃ r2, t.rows.get? k = some r2 ∧ r2.getD 0 "" = r.getD s0 "") := by
  constructor
  · intro data m s0 iv ij di hT hs hv hj hd hne hin
    have hmap : ∃ rs, mapExcept
        (fun r => resolveVDJRow m.get_genomic_data
          (([s0] ++ [iv] ++ [ij] ++ [di]).map (fun i => r.getD i "")))
        data.rows = Except.ok rs := by
      apply mapExcept_ok_of_forall
      intro r hr
      obtain ⟨h1, h2, h3⟩ := hin r hr
      have hmr : ([s0] ++ [iv] ++ [ij] ++ [di]).map
          (fun i => r.getD i "") =
          [r.getD s0 "", r.getD iv "", r.getD ij "", r.getD di ""] := by
        simp
      rw [hmr]
      exact resolveVDJRow_ok_of_inRange m.get_genomic_data _ _ _ _ h1 h2 h3
    obtain ⟨rs, hm⟩ := hmap
    refine ⟨⟨["seq_index", "gene_choice_v", "gene_choice_j",
      "gene_choice_d"], rs⟩, ?_, ?_, ?_⟩
    · unfold processRealizations
      rw [hT]
      simp only [beq_self_eq_true, if_true]
      rw [hs, hv, hj, hd]
      rw [if_neg (by simp : ¬ (([s0] : List Nat).isEmpty = true))]
      rw [if_pos (by simp : ((([s0] : List Nat) ++ [iv] ++ [ij] ++
        [di]).length == 4) = true)]
      rw [if_neg (by simpa using hne : ¬ data.rows.isEmpty = true)]
      rw [hm]
    · exact mapExcept_ok_length _ data.rows rs hm
    · intro k r hk
      obtain ⟨b, hb, hfb⟩ := mapExcept_ok_get _ data.rows rs hm k r hk
      have hmr : ([s0] ++ [iv] ++ [ij] ++ [di]).map
          (fun i => r.getD i "") =
          [r.getD s0 "", r.getD iv "", r.getD ij "", r.getD di ""] := by
        simp
      rw [hmr] at hfb
      obtain ⟨s, vn, jn, dn, hout, hhead, _, _, _⟩ :=
        resolveVDJRow_ok_shape m.get_genomic_data _ b hfb
      refine ⟨b, hb, ?_⟩
      rw [hout]
      simp only [List.getD] at hhead ⊢
      simp at hhead
      simp [hhead]
  · intro data m s0 iv ij hT hs hv hj hne hin
    have hmap : ∃ rs, mapExcept
        (fun r => resolveVJRow m.get_genomic_data
          (([s0] ++ [iv] ++ [ij]).map (fun i => r.getD i "")))
        data.rows = Except.ok rs := by
      apply mapExcept_ok_of_forall
      intro r hr
      obtain ⟨h1, h2⟩ := hin r hr
      have hmr : ([s0] ++ [iv] ++ [ij]).map (fun i => r.getD i "") =
          [r.getD s0 "", r.getD iv "", r.getD ij ""] := by
        simp
      rw [hmr]
      exact resolveVJRow_ok_of_inRange m.get_genomic_data _ _ _ h1 h2
    obtain ⟨rs, hm⟩ := hmap
    refine ⟨⟨["seq_index", "gene_choice_v", "gene_choice_j"], rs⟩,
      ?_, ?_, ?_⟩
    · unfold processRealizations
      rw [hT]
      simp only [beq_self_eq_true, if_true]
      rw [if_neg (by decide : ¬ (("VJ" == "VDJ") = true))]
      rw [hs, hv, hj]
      rw [if_neg (by simp : ¬ (([s0] : List Nat).isEmpty = true))]
      rw [if_pos (by simp : ((([s0] : List Nat) ++ [iv] ++
        [ij]).length == 3) = true)]
      rw [if_neg (by simpa using hne : ¬ data.rows.isEmpty = true)]
      rw [hm]
    · exact mapExcept_ok_length _ data.rows rs hm
    · intro k r hk
      obtain ⟨b, hb, hfb⟩ := mapExcept_ok_get _ data.rows rs hm k r hk
      have hmr : ([s0] ++ [iv] ++ [ij]).map (fun i => r.getD i "") =
          [r.getD s0 "", r.getD iv "", r.getD ij ""] := by
        simp
      rw [hmr] at hfb
      obtain ⟨s, vn, jn, hout, hhead, _, _⟩ :=
        resolveVJRow_ok_shape m.get_genomic_data _ b hfb
      refine ⟨b, hb, ?_⟩
      rw [hout]
      simp only [List.getD] at hhead ⊢
      simp at hhead
      simp [hhead]

/-- A synthetic VJ model with two V genes and one J gene. -/
def modelVJ : IgorLoader :=
  ⟨"VJ", ⟨[("TRAV1", "aaa"), ("TRAV2", "ccc")], [("TRAJ1", "ggg")], []⟩⟩

/-- A one-row raw realization table for the VJ model. -/
def dataVJ : DataFrame :=
  ⟨["seq_index", "GeneChoice_V_gene_Undefined_side_prio7_size2",
    "GeneChoice_J_gene_Undefined_side_prio7_size1"],
   [["7", "(0)", "(0)"]]⟩

/-- The zero-row realization table whose columns conform to the decoder:
seq_index present and exactly one column per gene-choice pattern. -/
def dataC5empty : DataFrame :=
  ⟨["seq_index", "GeneChoice_V_gene_Undefined_side_prio7_size2",
    "GeneChoice_J_gene_Undefined_side_prio7_size1",
    "GeneChoice_D_gene_Undefined_side_prio6_size1"],
   []⟩

/-- C5 counterexample: the zero-row table satisfies every premise of the
claim, each pattern selecting exactly one column and the in-range condition
holding vacuously, yet the decoder does not return a table at all: the zip
unpacking of the empty apply result raises a ValueError. -/
theorem C5_counterexample_empty_table :
    colIdxsNamed dataC5empty "seq_index" = [0] ∧
    matchingColIdxs dataC5empty "V" = [1] ∧
    matchingColIdxs dataC5empty "J" = [2] ∧
    matchingColIdxs dataC5empty "D" = [3] ∧
    (∀ r ∈ dataC5empty.rows,
      eventInRange modelC1.get_genomic_data.genV (r.getD 1 "") = true ∧
      eventInRange modelC1.get_genomic_data.genJ (r.getD 2 "") = true ∧
      eventInRange modelC1.get_genomic_data.genD (r.getD 3 "") = true) ∧
    processRealizations dataC5empty modelC1 =
      Except.error DecodeError.valueError := by
  decide

/-- Witness for C5 on the one-row VDJ table and the one-row VJ table. -/
theorem C5_row_correspondence_witness :
    (∃ t, processRealizations dataC1 modelC1 = Except.ok t ∧
      t.rows.length = dataC1.rows.length ∧
      ∀ (k : Nat) (r : List String), dataC1.rows.get? k = some r →
        ∃ r2, t.rows.get? k = some r2 ∧ r2.getD 0 "" = r.getD 0 "") ∧
    (∃ t, processRealizations dataVJ modelVJ = Except.ok t ∧
      t.rows.length = dataVJ.rows.length ∧
      ∀ (k : Nat) (r : List String), dataVJ.rows.get? k = some r →
        ∃ r2, t.rows.get? k = some r2 ∧ r2.getD 0 "" = r.getD 0 "") :=
  ⟨C5_row_correspondence.1 dataC1 modelC1 0 1 2 3 rfl (by decide)
     (by decide) (by decide) (by decide) (by decide) (by decide),
   C5_row_correspondence.2 dataVJ modelVJ 0 1 2 rfl (by decide)
     (by decide) (by decide) (by decide) (by decide)⟩

/-- Split a character list at every separator occurrence, the Python method
str.split with an explicit separator: the empty string gives one empty
field, adjacent separators give empty fields. -/
def splitOnChar (sep : Char) : List Char → List (List Char)
  | [] => [[]]
  | c :: cs =>
    if c == sep then [] :: splitOnChar sep cs
    else
      match splitOnChar sep cs with
      | [] => [[c]]
      | g :: gs => (c :: g) :: gs

/-- The Python expression s.split(sep) for a one-character separator. -/
def pySplit (s : String) (sep : Char) : List String :=
  (splitOnChar sep s.toList).map List.asString

/-- One genomic-template record as read_fasta_as_dataframe yields it: the
FASTA header annotation in the info column and the nucleotide sequence in
the configured sequence column. -/
structure FastaRecord where
  info : String
  sequence : String
deriving DecidableEq

/-- The per-record body of the apply in
ExtractFileSequences._process_gene_df: the resolved gene identifier is the
pipe-delimited field 1 of the annotation, an IndexError when the split has
fewer than two fields; the record keeps its nucleotide sequence and, the
info column being dropped afterwards, nothing else. -/
def extractResolved (rec : FastaRecord) :
    Except DecodeError (String × String) :=
  match (pySplit rec.info '|').get? 1 with
  | none => .error .indexError
  | some g => .ok (rec.sequence, g)

/-- The static method ExtractFileSequences._process_gene_df of
immuno_probs/cli/extract_file_sequences.py on the already-read records:
build the reference gene table, one (sequence, resolved identifier) pair
per record, the info column dropped; the first malformed annotation aborts
the whole construction. -/
def processGeneDf (records : List FastaRecord) :
    Except DecodeError (List (String × String)) :=
  mapExcept extractResolved records

/-- The element at position 1 exists in every list of length two or
more. -/
lemma get?_one_of_two_le {l : List String} (h : 2 ≤ l.length) :
    l.get? 1 = some (l.getD 1 "") := by
  match l with
  | [] => simp at h
  | [a] => simp at h
  | a :: b :: rest => rfl

/-- Well-formed annotations make the whole table construction succeed,
entry by entry. -/
lemma processGeneDf_ok_of_wellformed (records : List FastaRecord)
    (h : ∀ rec ∈ records, 2 ≤ (pySplit rec.info '|').length) :
    ∃ out, processGeneDf records = Except.ok out ∧
      out.length = records.length ∧
      ∀ (k : Nat) (rec : FastaRecord), records.get? k = some rec →
        out.get? k = some (rec.sequence, (pySplit rec.info '|').getD 1 "") := by
  have hall : ∀ rec ∈ records, ∃ b, extractResolved rec = Except.ok b := by
    intro rec hm
    have hg := get?_one_of_two_le (h rec hm)
    exact ⟨(rec.sequence, (pySplit rec.info '|').getD 1 ""),
      by simp only [extractResolved, hg]⟩
  obtain ⟨out, hout⟩ := mapExcept_ok_of_forall _ records hall
  refine ⟨out, hout, mapExcept_ok_length _ records out hout, ?_⟩
  intro k rec hk
  obtain ⟨b, hb, hfb⟩ := mapExcept_ok_get _ records out hout k rec hk
  have hg := get?_one_of_two_le (h rec (List.get?_mem hk))
  simp only [extractResolved, hg, Except.ok.injEq] at hfb
  rw [hb, ← hfb]

/-- C6: when every annotation has at least two pipe-delimited fields, the
reference gene table construction succeeds, produces one entry per record,
and the entry of every record is exactly the pair of its kept nucleotide
sequence and the pipe-delimited field 1 of its annotation; the output
entries carry no annotation component at all. -/
theorem C6_reference_gene_table (records : List FastaRecord)
    (h : ∀ rec ∈ records, 2 ≤ (pySplit rec.info '|').length) :
    ∃ out, processGeneDf records = Except.ok out ∧
      out.length = records.length ∧
      ∀ (k : Nat) (rec : FastaRecord), records.get? k = some rec →
        out.get? k = some (rec.sequence, (pySplit rec.info '|').getD 1 "") :=
  processGeneDf_ok_of_wellformed records h

/-- Witness for C6 on two IMGT-style annotated records. -/
theorem C6_reference_gene_table_witness :
    ∃ out, processGeneDf
        [⟨"X00001|TRBV1*01|Homo sapiens", "acgt"⟩,
         ⟨"X00002|TRBV2*01|Homo sapiens", "ggcc"⟩] = Except.ok out ∧
      out.length = ([⟨"X00001|TRBV1*01|Homo sapiens", "acgt"⟩,
         ⟨"X00002|TRBV2*01|Homo sapiens", "ggcc"⟩] :
           List FastaRecord).length ∧
      ∀ (k : Nat) (rec : FastaRecord),
        ([⟨"X00001|TRBV1*01|Homo sapiens", "acgt"⟩,
          ⟨"X00002|TRBV2*01|Homo sapiens", "ggcc"⟩] :
            List FastaRecord).get? k = some rec →
        out.get? k = some (rec.sequence, (pySplit rec.info '|').getD 1 "") :=
  C6_reference_gene_table
    [⟨"X00001|TRBV1*01|Homo sapiens", "acgt"⟩,
     ⟨"X00002|TRBV2*01|Homo sapiens", "ggcc"⟩] (by decide)

/-- Resolution of one record raises exactly when its annotation splits into
fewer than two pipe-delimited fields. -/
lemma extractResolved_error_iff (rec : FastaRecord) :
    (∃ e, extractResolved rec = Except.error e) ↔
      (pySplit rec.info '|').length < 2 := by
  cases hg : (pySplit rec.info '|').get? 1 with
  | none =>
    have hlen := List.get?_eq_none.mp hg
    simp only [extractResolved, hg]
    constructor
    · intro _; omega
    · intro _; exact ⟨.indexError, rfl⟩
  | some g =>
    have hlt : 1 < (pySplit rec.info '|').length := by
      by_contra hc
      rw [List.get?_eq_none.mpr (by omega)] at hg
      cases hg
    simp only [extractResolved, hg]
    constructor
    · rintro ⟨e, he⟩
      exact absurd he (by simp)
    · intro hlen; omega

/-- C7: the reference gene table construction fails, aborting instead of
skipping, exactly when some annotation splits into fewer than two
pipe-delimited fields; and when every annotation has at least two fields it
succeeds for all records. -/
theorem C7_malformed_reference_iff (records : List FastaRecord) :
    ((∃ e, processGeneDf records = Except.error e) ↔
      ∃ rec ∈ records, (pySplit rec.info '|').length < 2) ∧
    ((∀ rec ∈ records, 2 ≤ (pySplit rec.info '|').length) →
      ∃ out, processGeneDf records = Except.ok out ∧
        out.length = records.length) := by
  constructor
  · unfold processGeneDf
    rw [mapExcept_error_iff]
    constructor
    · rintro ⟨rec, hm, e, he⟩
      exact ⟨rec, hm, (extractResolved_error_iff rec).mp ⟨e, he⟩⟩
    · rintro ⟨rec, hm, hlen⟩
      obtain ⟨e, he⟩ := (extractResolved_error_iff rec).mpr hlen
      exact ⟨rec, hm, e, he⟩
  · intro h
    obtain ⟨out, hout, hlen, _⟩ := processGeneDf_ok_of_wellformed records h
    exact ⟨out, hout, hlen⟩

/-- Witness for C7 on a single record whose annotation has no pipe. -/
theorem C7_malformed_reference_iff_witness :
    ((∃ e, processGeneDf [⟨"badannotation", "acgt"⟩] = Except.error e) ↔
      ∃ rec ∈ ([⟨"badannotation", "acgt"⟩] : List FastaRecord),
        (pySplit rec.info '|').length < 2) ∧
    ((∀ rec ∈ ([⟨"badannotation", "acgt"⟩] : List FastaRecord),
        2 ≤ (pySplit rec.info '|').length) →
      ∃ out, processGeneDf [⟨"badannotation", "acgt"⟩] = Except.ok out ∧
        out.length =
          ([⟨"badannotation", "acgt"⟩] : List FastaRecord).length) :=
  C7_malformed_reference_iff [⟨"badannotation", "acgt"⟩]

/-- One input sequence record of the Extraction Engine, with the fields the
spec names in section 3. -/
structure SeqRecord where
  rowId : String
  ntSeq : String
  aaSeq : String
  frameType : String
  cdr3Length : Int
  vResolved : String
  jResolved : String
deriving DecidableEq

/-- One classified output row: row identifier, resolved V and J, and the
sequence payload (full-length nucleotide, or CDR3 nucleotide plus amino
acid). -/
structure OutRow where
  rowId : String
  vGene : String
  jGene : String
  ntPayload : String
  aaPayload : String
deriving DecidableEq

/-- The four per-chunk result tables of the Extraction Worker. -/
structure WorkerOutput where
  cdr3 : List OutRow
  fullProductive : List OutRow
  fullUnproductive : List OutRow
  fullAll : List OutRow
deriving DecidableEq

/-- Modelled from the spec: gene resolution of section 4.2 (the resolver
lives in immuno_probs/vdj/sequence_extractor.py, which is not under src).
With use_allele the raw string is looked up verbatim; otherwise the allele
suffix is stripped at the star and the default allele appended before the
lookup. -/
def resolveGene (raw : String) (table : List (String × String))
    (useAllele : Bool) (defaultAllele : String) :
    Option (String × String) :=
  let key := if useAllele then raw
    else (raw.toList.takeWhile (fun c => c != '*')).asString ++ "*" ++
      defaultAllele
  table.find? (fun entry => entry.fst == key)

/-- Modelled from the spec: the Extraction Worker per-row logic of section
4.3 (SequenceExtractor.extract of immuno_probs/vdj/sequence_extractor.py is
not under src). A failed V or J resolution skips the row entirely; a
resolvable row is classified productive exactly when its frame type is the
in-frame label In and lands in full-productive or full-unproductive
accordingly, and in full-all always; a positive CDR3 length with a
non-empty amino-acid sequence additionally yields a CDR3 row, taken here as
the trailing CDR3-length amino acids and the corresponding trailing
nucleotides, the exact boundary being unspecified in the spec. -/
def processRow (row : SeqRecord) (vTable jTable : List (String × String))
    (useAllele : Bool) (defaultAllele : String) : WorkerOutput :=
  match resolveGene row.vResolved vTable useAllele defaultAllele,
      resolveGene row.jResolved jTable useAllele defaultAllele with
  | some vE, some jE =>
    let fullRow : OutRow := ⟨row.rowId, vE.fst, jE.fst, row.ntSeq, ""⟩
    let cdr3Rows : List OutRow :=
      if 0 < row.cdr3Length ∧ row.aaSeq ≠ "" then
        [⟨row.rowId, vE.fst, jE.fst,
          (row.ntSeq.toList.drop
            (row.ntSeq.length - 3 * row.cdr3Length.toNat)).asString,
          (row.aaSeq.toList.drop
            (row.aaSeq.length - row.cdr3Length.toNat)).asString⟩]
      else []
    if row.frameType == "In" then ⟨cdr3Rows, [fullRow], [], [fullRow]⟩
    else ⟨cdr3Rows, [], [fullRow], [fullRow]⟩
  | _, _ => ⟨[], [], [], []⟩

/-- C8: for every input row, a contribution to full-productive or to
full-unproductive forces a contribution to full-all, and no row contributes
to both full-productive and full-unproductive. -/
theorem C8_productivity_partition (row : SeqRecord)
    (vTable jTable : List (String × String)) (useAllele : Bool)
    (defaultAllele : String) :
    (((processRow row vTable jTable useAllele
        defaultAllele).fullProductive ≠ [] ∨
      (processRow row vTable jTable useAllele
        defaultAllele).fullUnproductive ≠ []) →
      (processRow row vTable jTable useAllele defaultAllele).fullAll ≠ []) ∧
    ((processRow row vTable jTable useAllele
        defaultAllele).fullProductive = [] ∨
      (processRow row vTable jTable useAllele
        defaultAllele).fullUnproductive = []) := by
  cases hv : resolveGene row.vResolved vTable useAllele defaultAllele with
  | none => simp [processRow, hv]
  | some vE =>
    cases hj : resolveGene row.jResolved jTable useAllele defaultAllele with
    | none => simp [processRow, hv, hj]
    | some jE =>
      by_cases hf : (row.frameType == "In") = true
      · simp [processRow, hv, hj, hf]
      · simp [processRow, hv, hj, hf]

/-- A concrete productive input record for the C8 witness. -/
def rowC8 : SeqRecord :=
  ⟨"r1", "acgtacgtacgt", "TRCS", "In", 2, "TRBV1*01", "TRBJ1*01"⟩

/-- The concrete V reference table for the C8 witness. -/
def vTableC8 : List (String × String) := [("TRBV1*01", "acgt")]

/-- The concrete J reference table for the C8 witness. -/
def jTableC8 : List (String × String) := [("TRBJ1*01", "ggtt")]

/-- Witness for C8 at a concrete productive row and one-entry tables. -/
theorem C8_productivity_partition_witness :
    (((processRow rowC8 vTableC8 jTableC8 true "01").fullProductive ≠ [] ∨
      (processRow rowC8 vTableC8 jTableC8 true "01").fullUnproductive ≠ []) →
      (processRow rowC8 vTableC8 jTableC8 true "01").fullAll ≠ []) ∧
    ((processRow rowC8 vTableC8 jTableC8 true "01").fullProductive = [] ∨
      (processRow rowC8 vTableC8 jTableC8 true "01").fullUnproductive = []) :=
  C8_productivity_partition rowC8 vTableC8 jTableC8 true "01"

/-- The call processed.insert of the source: a new column at position 0
whose scalar value is broadcast to every row. -/
def insertCol (df : DataFrame) (name val : String) : DataFrame :=
  ⟨name :: df.cols, df.rows.map (fun r => val :: r)⟩

/-- Last position satisfying p in a character list, if any. -/
def lastIdxOf (p : Char → Bool) (cs : List Char) : Option Nat :=
  match cs.reverse.findIdx? p with
  | none => none
  | some k => some (cs.length - 1 - k)

/-- The Python call os.path.basename: everything after the last slash. -/
def pyBasename (s : String) : String :=
  ((splitOnChar '/' s.toList).getLastD []).asString

/-- The root component of the Python call os.path.splitext on a base name:
cut at the last dot, unless every character before that dot is itself a
dot, in which case the name is kept whole. -/
def pySplitextRoot (name : String) : String :=
  match lastIdxOf (fun c => c == '.') name.toList with
  | none => name
  | some d =>
    if (name.toList.take d).any (fun c => c != '.') then
      (name.toList.take d).asString
    else name

/-- The file-identifier label of the run method: the base name of the input
sequence file without its extension. -/
def fileNameId (path : String) : String := pySplitextRoot (pyBasename path)

/-- The per-chunk loop body of ExtractFileSequences.run: the caller inserts
the file-identifier column at position 0 of each of the four chunk
tables. -/
def attachFileId (idCol fid : String)
    (chunk : DataFrame × DataFrame × DataFrame × DataFrame) :
    DataFrame × DataFrame × DataFrame × DataFrame :=
  (insertCol chunk.1 idCol fid, insertCol chunk.2.1 idCol fid,
   insertCol chunk.2.2.1 idCol fid, insertCol chunk.2.2.2 idCol fid)

/-- Inserting a column at position 0 prepends the label to the column list
and the value to every row, changing nothing else. -/
lemma insertCol_spec (df : DataFrame) (name val : String) :
    (insertCol df name val).cols = name :: df.cols ∧
    (insertCol df name val).rows.length = df.rows.length ∧
    ∀ (k : Nat) (r : List String), df.rows.get? k = some r →
      (insertCol df name val).rows.get? k = some (val :: r) := by
  refine ⟨rfl, by simp [insertCol], ?_⟩
  intro k r hk
  rw [List.get?_eq_getElem?] at hk
  simp [insertCol, hk]

/-- C9: the caller inserts the file identifier, the base name of the input
file without extension, as the first column of each of the four chunk
tables; every output row starts with it and all other columns and row
contents are unchanged. -/
theorem C9_caller_attaches_file_id (path idCol : String)
    (chunk : DataFrame × DataFrame × DataFrame × DataFrame) :
    ((attachFileId idCol (fileNameId path) chunk).1.cols =
        idCol :: chunk.1.cols ∧
      (attachFileId idCol (fileNameId path) chunk).1.rows.length =
        chunk.1.rows.length ∧
      ∀ (k : Nat) (r : List String), chunk.1.rows.get? k = some r →
        (attachFileId idCol (fileNameId path) chunk).1.rows.get? k =
          some (fileNameId path :: r)) ∧
    ((attachFileId idCol (fileNameId path) chunk).2.1.cols =
        idCol :: chunk.2.1.cols ∧
      (attachFileId idCol (fileNameId path) chunk).2.1.rows.length =
        chunk.2.1.rows.length ∧
      ∀ (k : Nat) (r : List String), chunk.2.1.rows.get? k = some r →
        (attachFileId idCol (fileNameId path) chunk).2.1.rows.get? k =
          some (fileNameId path :: r)) ∧
    ((attachFileId idCol (fileNameId path) chunk).2.2.1.cols =
        idCol :: chunk.2.2.1.cols ∧
      (attachFileId idCol (fileNameId path) chunk).2.2.1.rows.length =
        chunk.2.2.1.rows.length ∧
      ∀ (k : Nat) (r : List String), chunk.2.2.1.rows.get? k = some r →
        (attachFileId idCol (fileNameId path) chunk).2.2.1.rows.get? k =
          some (fileNameId path :: r)) ∧
    ((attachFileId idCol (fileNameId path) chunk).2.2.2.cols =
        idCol :: chunk.2.2.2.cols ∧
      (attachFileId idCol (fileNameId path) chunk).2.2.2.rows.length =
        chunk.2.2.2.rows.length ∧
      ∀ (k : Nat) (r : List String), chunk.2.2.2.rows.get? k = some r →
        (attachFileId idCol (fileNameId path) chunk).2.2.2.rows.get? k =
          some (fileNameId path :: r)) :=
  ⟨insertCol_spec chunk.1 idCol (fileNameId path),
   insertCol_spec chunk.2.1 idCol (fileNameId path),
   insertCol_spec chunk.2.2.1 idCol (fileNameId path),
   insertCol_spec chunk.2.2.2 idCol (fileNameId path)⟩

/-- A one-row CDR3 chunk table for the C9 witness. -/
def cdr3DfC9 : DataFrame := ⟨["nt_sequence"], [["acg"]]⟩

/-- A one-row productive chunk table for the C9 witness. -/
def prodDfC9 : DataFrame := ⟨["nt_sequence"], [["acgt"]]⟩

/-- An empty unproductive chunk table for the C9 witness. -/
def unprodDfC9 : DataFrame := ⟨["nt_sequence"], []⟩

/-- A one-row full-length chunk table for the C9 witness. -/
def fullDfC9 : DataFrame := ⟨["nt_sequence"], [["acgt"]]⟩

/-- Witness for C9 at the path data/sample_file.tsv, whose file identifier
evaluates to sample_file, over a concrete chunk tuple. -/
theorem C9_caller_attaches_file_id_witness :
    fileNameId "data/sample_file.tsv" = "sample_file" ∧
    (((attachFileId "file_name" (fileNameId "data/sample_file.tsv")
        (cdr3DfC9, prodDfC9, unprodDfC9, fullDfC9)).1.cols =
        "file_name" :: (cdr3DfC9, prodDfC9, unprodDfC9,
          fullDfC9).1.cols ∧
      (attachFileId "file_name" (fileNameId "data/sample_file.tsv")
        (cdr3DfC9, prodDfC9, unprodDfC9, fullDfC9)).1.rows.length =
        (cdr3DfC9, prodDfC9, unprodDfC9, fullDfC9).1.rows.length ∧
      ∀ (k : Nat) (r : List String),
        (cdr3DfC9, prodDfC9, unprodDfC9, fullDfC9).1.rows.get? k = some r →
        (attachFileId "file_name" (fileNameId "data/sample_file.tsv")
          (cdr3DfC9, prodDfC9, unprodDfC9, fullDfC9)).1.rows.get? k =
          some (fileNameId "data/sample_file.tsv" :: r)) ∧
    ((attachFileId "file_name" (fileNameId "data/sample_file.tsv")
        (cdr3DfC9, prodDfC9, unprodDfC9, fullDfC9)).2.1.cols =
        "file_name" :: (cdr3DfC9, prodDfC9, unprodDfC9,
          fullDfC9).2.1.cols ∧
      (attachFileId "file_name" (fileNameId "data/sample_file.tsv")
        (cdr3DfC9, prodDfC9, unprodDfC9, fullDfC9)).2.1.rows.length =
        (cdr3DfC9, prodDfC9, unprodDfC9, fullDfC9).2.1.rows.length ∧
      ∀ (k : Nat) (r : List String),
        (cdr3DfC9, prodDfC9, unprodDfC9, fullDfC9).2.1.rows.get? k =
          some r →
        (attachFileId "file_name" (fileNameId "data/sample_file.tsv")
          (cdr3DfC9, prodDfC9, unprodDfC9, fullDfC9)).2.1.rows.get? k =
          some (fileNameId "data/sample_file.tsv" :: r)) ∧
    ((attachFileId "file_name" (fileNameId "data/sample_file.tsv")
        (cdr3DfC9, prodDfC9, unprodDfC9, fullDfC9)).2.2.1.cols =
        "file_name" :: (cdr3DfC9, prodDfC9, unprodDfC9,
          fullDfC9).2.2.1.cols ∧
      (attachFileId "file_name" (fileNameId "data/sample_file.tsv")
        (cdr3DfC9, prodDfC9, unprodDfC9, fullDfC9)).2.2.1.rows.length =
        (cdr3DfC9, prodDfC9, unprodDfC9, fullDfC9).2.2.1.rows.length ∧
      ∀ (k : Nat) (r : List String),
        (cdr3DfC9, prodDfC9, unprodDfC9, fullDfC9).2.2.1.rows.get? k =
          some r →
        (attachFileId "file_name" (fileNameId "data/sample_file.tsv")
          (cdr3DfC9, prodDfC9, unprodDfC9, fullDfC9)).2.2.1.rows.get? k =
          some (fileNameId "data/sample_file.tsv" :: r)) ∧
    ((attachFileId "file_name" (fileNameId "data/sample_file.tsv")
        (cdr3DfC9, prodDfC9, unprodDfC9, fullDfC9)).2.2.2.cols =
        "file_name" :: (cdr3DfC9, prodDfC9, unprodDfC9,
          fullDfC9).2.2.2.cols ∧
      (attachFileId "file_name" (fileNameId "data/sample_file.tsv")
        (cdr3DfC9, prodDfC9, unprodDfC9, fullDfC9)).2.2.2.rows.length =
        (cdr3DfC9, prodDfC9, unprodDfC9, fullDfC9).2.2.2.rows.length ∧
      ∀ (k : Nat) (r : List String),
        (cdr3DfC9, prodDfC9, unprodDfC9, fullDfC9).2.2.2.rows.get? k =
          some r →
        (attachFileId "file_name" (fileNameId "data/sample_file.tsv")
          (cdr3DfC9, prodDfC9, unprodDfC9, fullDfC9)).2.2.2.rows.get? k =
          some (fileNameId "data/sample_file.tsv" :: r))) :=
  ⟨by decide,
   C9_caller_attaches_file_id "data/sample_file.tsv" "file_name"
     (cdr3DfC9, prodDfC9, unprodDfC9, fullDfC9)⟩

end ImmunoProbs
